import Mathlib

/-!
Verification development for the Situ browser extension.

Shallow embedding of the persistent store (`src/unnamed/part_003`, class
`StorageManager`), the background message router
(`src/background/background.js`, `handleMessage`) and the content script
(`src/content/content.js`): the vocabulary highlighter, the per-session
seen-event guard and the word-tracking update batcher.

Modelling conventions:
* `chrome.storage.sync` is a key-value store; the three keys used by the
  program become the three `Option` fields of `Store` (`none` = key absent).
* Timestamps (`Date.now()`) and the current date string are passed as
  explicit parameters.
* JavaScript objects spread-merged with defaults become structures with
  `Option` fields plus an explicit merge function.
-/

set_option maxRecDepth 4000

/-- JavaScript `String.prototype.toLowerCase` (character-wise). -/
def lowerString (s : String) : String :=
  ⟨s.data.map Char.toLower⟩

/-- JavaScript `String.prototype.trim`: strip leading and trailing
whitespace. -/
def trimString (s : String) : String :=
  ⟨((s.data.dropWhile Char.isWhitespace).reverse.dropWhile Char.isWhitespace).reverse⟩

/-- One entry of a vocabulary item's `recentlySeen` list
(`part_003`, item structure comment lines 6-25). -/
structure RecentEntry where
  sentence : String
  url : String
  timestamp : Nat
deriving DecidableEq, Repr

/-- A vocabulary item as stored by `StorageManager`
(`part_003`, lines 6-25 and `addWord` lines 62-78). -/
structure VocabEntry where
  id : String
  word : String
  definition : String
  examples : List String
  synonyms : List String
  addedDate : Nat
  lastSeen : Nat
  seenCount : Nat
  usedCount : Nat
  difficulty : String
  notes : String
  tags : List String
  sourceUrl : String
  sourceSentence : String
  recentlySeen : List RecentEntry
deriving DecidableEq, Repr

/-- The `wordData` argument of `StorageManager.addWord`: a JavaScript object
whose fields other than `word` may be absent (`part_003`, lines 62-78;
`x || default` reads become `Option.getD`). -/
structure WordData where
  word : String
  definition : Option String := none
  examples : Option (List String) := none
  synonyms : Option (List String) := none
  difficulty : Option String := none
  notes : Option String := none
  tags : Option (List String) := none
  sourceUrl : Option String := none
  sourceSentence : Option String := none
deriving DecidableEq, Repr

/-- Settings record, fields as in `DEFAULT_SETTINGS`
(`src/utils/constants.js`, lines 41-52). -/
structure Settings where
  readingMode : Bool
  writingMode : Bool
  highlightColor : String
  highlightStyle : String
  autoSuggest : Bool
  suggestionDelay : Nat
  showDefinitions : Bool
  difficulty : String
  dailyGoal : Nat
  notificationsEnabled : Bool
deriving DecidableEq, Repr

/-- A possibly-partial settings object as it may sit in storage
(spread-merge `\x7b...DEFAULT_SETTINGS, ...stored\x7d` semantics). -/
structure PartialSettings where
  readingMode : Option Bool := none
  writingMode : Option Bool := none
  highlightColor : Option String := none
  highlightStyle : Option String := none
  autoSuggest : Option Bool := none
  suggestionDelay : Option Nat := none
  showDefinitions : Option Bool := none
  difficulty : Option String := none
  dailyGoal : Option Nat := none
  notificationsEnabled : Option Bool := none
deriving DecidableEq, Repr

/-- `DEFAULT_SETTINGS` from `src/utils/constants.js` lines 41-52. -/
def DEFAULT_SETTINGS : Settings where
  readingMode := true
  writingMode := true
  highlightColor := "rgba(236, 72, 153, 0.25)"
  highlightStyle := "background"
  autoSuggest := true
  suggestionDelay := 1000
  showDefinitions := true
  difficulty := "intermediate"
  dailyGoal := 10
  notificationsEnabled := true

/-- JavaScript object spread `\x7b...base, ...p\x7d` for settings:
present fields of `p` override `base`. -/
def mergeSettings (base : Settings) (p : PartialSettings) : Settings where
  readingMode := p.readingMode.getD base.readingMode
  writingMode := p.writingMode.getD base.writingMode
  highlightColor := p.highlightColor.getD base.highlightColor
  highlightStyle := p.highlightStyle.getD base.highlightStyle
  autoSuggest := p.autoSuggest.getD base.autoSuggest
  suggestionDelay := p.suggestionDelay.getD base.suggestionDelay
  showDefinitions := p.showDefinitions.getD base.showDefinitions
  difficulty := p.difficulty.getD base.difficulty
  dailyGoal := p.dailyGoal.getD base.dailyGoal
  notificationsEnabled := p.notificationsEnabled.getD base.notificationsEnabled

/-- View a full settings record as a stored object with every field present. -/
def toPartialSettings (s : Settings) : PartialSettings where
  readingMode := some s.readingMode
  writingMode := some s.writingMode
  highlightColor := some s.highlightColor
  highlightStyle := some s.highlightStyle
  autoSuggest := some s.autoSuggest
  suggestionDelay := some s.suggestionDelay
  showDefinitions := some s.showDefinitions
  difficulty := some s.difficulty
  dailyGoal := some s.dailyGoal
  notificationsEnabled := some s.notificationsEnabled

/-- Per-day counters of `stats.dailyStats` (`part_003`, lines 305-318). -/
structure DailyStat where
  seen : Nat
  used : Nat
  added : Nat
deriving DecidableEq, Repr

/-- The stats record (`part_003`, `getStats` lines 305-318); `dailyStats`
is a JavaScript object keyed by date string, modelled as an association
list in insertion order. -/
structure Stats where
  wordsAdded : Nat
  wordsSeen : Nat
  wordsUsed : Nat
  dailyStats : List (String × DailyStat)
deriving DecidableEq, Repr

/-- The state of `chrome.storage.sync` at the three keys the program uses
(`STORAGE_KEYS` in `src/utils/constants.js`); `none` means the key is absent. -/
structure Store where
  vocabRaw : Option (List VocabEntry) := none
  settingsRaw : Option PartialSettings := none
  statsRaw : Option Stats := none
deriving DecidableEq, Repr

def emptyStore : Store := {}

/-- `MAX_VOCABULARY_SIZE` from `src/utils/constants.js` line 121. -/
def MAX_VOCABULARY_SIZE : Nat := 1000

namespace StorageManager

/-- `StorageManager.getVocabulary` (`part_003` lines 31-39):
`result[key] || []`. -/
def getVocabulary (s : Store) : List VocabEntry :=
  s.vocabRaw.getD []

/-- Default stats object (`part_003` lines 308-313). -/
def defaultStats : Stats := ⟨0, 0, 0, []⟩

/-- `StorageManager.getStats` (`part_003` lines 305-318). -/
def getStats (s : Store) : Stats :=
  s.statsRaw.getD defaultStats

/-- `StorageManager.getSettings` (`part_003` lines 277-285):
`\x7b...DEFAULT_SETTINGS, ...result[key]\x7d`. -/
def getSettings (s : Store) : Settings :=
  mergeSettings DEFAULT_SETTINGS (s.settingsRaw.getD {})

/-- Ensure `stats.dailyStats[today]` exists (`part_003` lines 330-332). -/
def ensureDaily (l : List (String × DailyStat)) (today : String) :
    List (String × DailyStat) :=
  if (l.lookup today).isSome then l else l ++ [(today, ⟨0, 0, 0⟩)]

/-- In-place update of the entry for `today` (`part_003` line 336). -/
def modifyDaily (l : List (String × DailyStat)) (today : String)
    (f : DailyStat → DailyStat) : List (String × DailyStat) :=
  l.map fun kv => if kv.1 = today then (kv.1, f kv.2) else kv

/-- `StorageManager.updateStats` (`part_003` lines 323-342). The dynamic
`stats[key]` access only ever receives the three literal keys used by the
program. -/
def updateStats (key : String) (increment : Nat) (today : String) (s : Store) :
    Store :=
  let stats := getStats s
  let stats :=
    if key = "wordsAdded" then { stats with wordsAdded := stats.wordsAdded + increment }
    else if key = "wordsSeen" then { stats with wordsSeen := stats.wordsSeen + increment }
    else { stats with wordsUsed := stats.wordsUsed + increment }
  let ds := ensureDaily stats.dailyStats today
  let ds :=
    if key = "wordsAdded" then modifyDaily ds today fun d => { d with added := d.added + increment }
    else if key = "wordsSeen" then modifyDaily ds today fun d => { d with seen := d.seen + increment }
    else modifyDaily ds today fun d => { d with used := d.used + increment }
  { s with statsRaw := some { stats with dailyStats := ds } }

/-- Result object of `StorageManager.addWord` (`part_003` lines 44-91). -/
structure AddResult where
  success : Bool
  error : Option String := none
  existing : Option VocabEntry := none
  word : Option VocabEntry := none
deriving DecidableEq, Repr

/-- The new item built by `addWord` (`part_003` lines 62-78). `freshId`
stands for the generated `word_${Date.now()}_${random}` string and `now`
for `Date.now()`. -/
def mkNewWord (wd : WordData) (freshId : String) (now : Nat) : VocabEntry where
  id := freshId
  word := trimString wd.word
  definition := wd.definition.getD ""
  examples := wd.examples.getD []
  synonyms := wd.synonyms.getD []
  addedDate := now
  lastSeen := now
  seenCount := 0
  usedCount := 0
  difficulty := wd.difficulty.getD "intermediate"
  notes := wd.notes.getD ""
  tags := wd.tags.getD []
  sourceUrl := wd.sourceUrl.getD ""
  sourceSentence := wd.sourceSentence.getD ""
  recentlySeen := []

/-- `StorageManager.addWord` (`part_003` lines 44-91): duplicate check on
the lowercased raw input, size-limit check, push, stats bump. -/
def addWord (wd : WordData) (freshId : String) (now : Nat) (today : String)
    (s : Store) : AddResult × Store :=
  let vocabulary := getVocabulary s
  match vocabulary.find? (fun item => lowerString item.word == lowerString wd.word) with
  | some existing =>
      ({ success := false,
          error := some "Word already exists",
          existing := some existing }, s)
  | none =>
      if vocabulary.length ≥ MAX_VOCABULARY_SIZE then
        ({ success := false, error := some "Vocabulary limit reached" }, s)
      else
        let newWord := mkNewWord wd freshId now
        let s1 : Store := { s with vocabRaw := some (vocabulary ++ [newWord]) }
        let s2 := updateStats "wordsAdded" 1 today s1
        ({ success := true, word := some newWord }, s2)

/-- Partial update object passed to `StorageManager.updateWord`; the
JavaScript spread `\x7b...item, ...updates\x7d` can override any field. -/
structure WordUpdates where
  id : Option String := none
  word : Option String := none
  definition : Option String := none
  examples : Option (List String) := none
  synonyms : Option (List String) := none
  addedDate : Option Nat := none
  lastSeen : Option Nat := none
  seenCount : Option Nat := none
  usedCount : Option Nat := none
  difficulty : Option String := none
  notes : Option String := none
  tags : Option (List String) := none
  sourceUrl : Option String := none
  sourceSentence : Option String := none
  recentlySeen : Option (List RecentEntry) := none
deriving DecidableEq, Repr

/-- `\x7b...item, ...updates\x7d` (`part_003` line 105). -/
def mergeEntry (e : VocabEntry) (u : WordUpdates) : VocabEntry where
  id := u.id.getD e.id
  word := u.word.getD e.word
  definition := u.definition.getD e.definition
  examples := u.examples.getD e.examples
  synonyms := u.synonyms.getD e.synonyms
  addedDate := u.addedDate.getD e.addedDate
  lastSeen := u.lastSeen.getD e.lastSeen
  seenCount := u.seenCount.getD e.seenCount
  usedCount := u.usedCount.getD e.usedCount
  difficulty := u.difficulty.getD e.difficulty
  notes := u.notes.getD e.notes
  tags := u.tags.getD e.tags
  sourceUrl := u.sourceUrl.getD e.sourceUrl
  sourceSentence := u.sourceSentence.getD e.sourceSentence
  recentlySeen := u.recentlySeen.getD e.recentlySeen

/-- Replace the first element satisfying `p` by its image under `f`;
this is the `findIndex` / assign-at-index idiom of `updateWord` and the
find-then-mutate idiom of the increment operations. -/
def updateFirstBy (p : α → Bool) (f : α → α) : List α → List α
  | [] => []
  | x :: xs => if p x then f x :: xs else x :: updateFirstBy p f xs

/-- Result object of `StorageManager.updateWord`. -/
structure UpdateResult where
  success : Bool
  error : Option String := none
  word : Option VocabEntry := none
deriving DecidableEq, Repr

/-- `StorageManager.updateWord` (`part_003` lines 96-113). -/
def updateWord (id : String) (u : WordUpdates) (s : Store) :
    UpdateResult × Store :=
  let vocabulary := getVocabulary s
  match vocabulary.find? (fun item => item.id == id) with
  | none => ({ success := false, error := some "Word not found" }, s)
  | some e =>
      let v := updateFirstBy (fun item => item.id == id)
        (fun item => mergeEntry item u) vocabulary
      ({ success := true, word := some (mergeEntry e u) },
       { s with vocabRaw := some v })

/-- `StorageManager.deleteWord` (`part_003` lines 118-129). -/
def deleteWord (id : String) (s : Store) : Store :=
  { s with vocabRaw := some ((getVocabulary s).filter fun item => !(item.id == id)) }

/-- The case-insensitive word match used by the increment operations
(`item.word.toLowerCase() === word.toLowerCase()`). -/
def matchesWord (w : String) (item : VocabEntry) : Bool :=
  lowerString item.word == lowerString w

/-- `StorageManager.incrementSeenCount` (`part_003` lines 134-150):
silently does nothing when no item matches. -/
def incrementSeenCount (w : String) (now : Nat) (today : String) (s : Store) :
    Store :=
  let vocabulary := getVocabulary s
  if (vocabulary.find? (matchesWord w)).isSome then
    let v := updateFirstBy (matchesWord w)
      (fun item => { item with seenCount := item.seenCount + 1, lastSeen := now })
      vocabulary
    updateStats "wordsSeen" 1 today { s with vocabRaw := some v }
  else s

/-- `StorageManager.incrementUsedCount` (`part_003` lines 210-225). -/
def incrementUsedCount (w : String) (today : String) (s : Store) : Store :=
  let vocabulary := getVocabulary s
  if (vocabulary.find? (matchesWord w)).isSome then
    let v := updateFirstBy (matchesWord w)
      (fun item => { item with usedCount := item.usedCount + 1 })
      vocabulary
    updateStats "wordsUsed" 1 today { s with vocabRaw := some v }
  else s

/-- The `recentlySeen` update applied to the matched item
(`part_003` lines 238-265). -/
def pushRecent (sentence url : String) (now : Nat) (item : VocabEntry) :
    VocabEntry :=
  let rs := item.recentlySeen
  if (rs.find? (fun en => en.url == url)).isSome then
    { item with
        recentlySeen := updateFirstBy (fun en => en.url == url)
          (fun _ => ⟨sentence, url, now⟩) rs }
  else
    let rs := (⟨sentence, url, now⟩ : RecentEntry) :: rs
    { item with recentlySeen := if rs.length > 3 then rs.take 3 else rs }

/-- `StorageManager.addRecentlySeen` (`part_003` lines 230-272):
silently does nothing when no item matches. -/
def addRecentlySeen (w sentence url : String) (now : Nat) (s : Store) : Store :=
  let vocabulary := getVocabulary s
  if (vocabulary.find? (matchesWord w)).isSome then
    { s with
        vocabRaw := some (updateFirstBy (matchesWord w)
          (pushRecent sentence url now) vocabulary) }
  else s

/-- `StorageManager.updateSettings` (`part_003` lines 290-300). -/
def updateSettings (u : PartialSettings) (s : Store) : Store :=
  let current := getSettings s
  { s with settingsRaw := some (toPartialSettings (mergeSettings current u)) }

/-- The batched stat update object sent by the content script
(`src/content/content.js` lines 370-379). -/
structure StatUpdates where
  wordsSeen : Nat := 0
  wordsUsed : Nat := 0
  wordsAdded : Nat := 0
deriving DecidableEq, Repr

/-- `StorageManager.batchUpdateStats` (`part_003` lines 176-205); the
JavaScript truthiness tests `if (updates.wordsSeen)` become `≠ 0`. -/
def batchUpdateStats (u : StatUpdates) (today : String) (s : Store) : Store :=
  let stats := getStats s
  let stats := { stats with dailyStats := ensureDaily stats.dailyStats today }
  let stats :=
    if u.wordsSeen ≠ 0 then
      { stats with
          wordsSeen := stats.wordsSeen + u.wordsSeen,
          dailyStats := modifyDaily stats.dailyStats today
            (fun d => { d with seen := d.seen + u.wordsSeen }) }
    else stats
  let stats :=
    if u.wordsUsed ≠ 0 then
      { stats with
          wordsUsed := stats.wordsUsed + u.wordsUsed,
          dailyStats := modifyDaily stats.dailyStats today
            (fun d => { d with used := d.used + u.wordsUsed }) }
    else stats
  let stats :=
    if u.wordsAdded ≠ 0 then
      { stats with
          wordsAdded := stats.wordsAdded + u.wordsAdded,
          dailyStats := modifyDaily stats.dailyStats today
            (fun d => { d with added := d.added + u.wordsAdded }) }
    else stats
  { s with statsRaw := some stats }

/-- The object returned by `StorageManager.exportVocabulary`
(`part_003` lines 366-383); `exportDate` stands for
`new Date().toISOString()`. -/
structure ExportData where
  version : String
  exportDate : String
  vocabulary : List VocabEntry
  settings : Settings
  stats : Stats
deriving DecidableEq, Repr

/-- `StorageManager.exportVocabulary` (`part_003` lines 366-383). -/
def exportVocabulary (exportDate : String) (s : Store) : ExportData where
  version := "1.0"
  exportDate := exportDate
  vocabulary := getVocabulary s
  settings := getSettings s
  stats := getStats s

/-- The argument of `StorageManager.importVocabulary`: any JSON object;
absent (or falsy non-object) fields are `none`. -/
structure ImportData where
  version : Option String := none
  exportDate : Option String := none
  vocabulary : Option (List VocabEntry) := none
  settings : Option Settings := none
  stats : Option Stats := none
deriving DecidableEq, Repr

/-- `StorageManager.importVocabulary` (`part_003` lines 388-404): each
present section is written to its key verbatim, with no validation. -/
def importVocabulary (d : ImportData) (s : Store) : Store :=
  let s := match d.vocabulary with
    | some v => { s with vocabRaw := some v }
    | none => s
  let s := match d.settings with
    | some st => { s with settingsRaw := some (toPartialSettings st) }
    | none => s
  match d.stats with
  | some st => { s with statsRaw := some st }
  | none => s

/-- Repackage an export (whose three data fields are always present,
arrays and objects being truthy) as import input. -/
def toImportData (e : ExportData) : ImportData where
  version := some e.version
  exportDate := some e.exportDate
  vocabulary := some e.vocabulary
  settings := some e.settings
  stats := some e.stats

/-- `StorageManager.clearAllData` (`part_003` lines 409-421). -/
def clearAllData (_s : Store) : Store := {}

end StorageManager

/-!
Background message router (`src/background/background.js`, `handleMessage`,
lines 113-237). Dispatch is on the string `message.action`; the named
constructors below are exactly the `case` labels of the `switch` whose
handlers touch the store, `other` covers every remaining action string:
the six AI actions (whose handlers call `AIHelper` and never touch the
store) and the `default` branch.
-/

/-- A runtime message (`message.action` plus payload). -/
inductive Msg where
  | getVocabulary
  | addWord (wordData : WordData)
  | updateWord (id : String) (updates : StorageManager.WordUpdates)
  | deleteWord (id : String)
  | getSettings
  | updateSettings (settings : PartialSettings)
  | getStats
  | incrementSeenCount (word : String)
  | incrementUsedCount (word : String)
  | addRecentlySeen (word sentence url : String)
  | exportData
  | importData (data : StorageManager.ImportData)
  | clearAllData
  | other (action : String)
deriving DecidableEq, Repr

/-- Shape of the `sendResponse` payload; absent fields are `none`.
`externalAI` marks responses produced by the Enrichment Service handlers,
whose content is outside the store model. -/
structure Response where
  success : Bool
  error : Option String := none
  vocabulary : Option (List VocabEntry) := none
  settings : Option Settings := none
  stats : Option Stats := none
  word : Option VocabEntry := none
  existing : Option VocabEntry := none
  data : Option StorageManager.ExportData := none
  externalAI : Bool := false
deriving DecidableEq, Repr

/-- The action strings of the `switch` cases whose handlers call
`AIHelper` (`background.js` lines 177-213). -/
def aiActions : List String :=
  ["enrichWord", "getDefinition", "getExample", "getSynonyms",
   "getWritingSuggestion", "checkAIAvailability"]

/-- Ambient data the handlers read from the environment: `Date.now()`,
today's date string and the generated fresh id. -/
structure MsgCtx where
  now : Nat := 0
  today : String := ""
  freshId : String := ""
deriving DecidableEq, Repr

/-- `handleMessage` (`background.js` lines 113-237): one response per
message, unknown tags answered with `success:false, error:'Unknown
action'` by the `default` branch (lines 230-231). -/
def handleMessage (msg : Msg) (ctx : MsgCtx) (s : Store) : Response × Store :=
  match msg with
  | .getVocabulary =>
      ({ success := true, vocabulary := some (StorageManager.getVocabulary s) }, s)
  | .addWord wd =>
      let r := StorageManager.addWord wd ctx.freshId ctx.now ctx.today s
      ({ success := r.1.success, error := r.1.error,
          existing := r.1.existing, word := r.1.word }, r.2)
  | .updateWord id u =>
      let r := StorageManager.updateWord id u s
      ({ success := r.1.success, error := r.1.error, word := r.1.word }, r.2)
  | .deleteWord id =>
      ({ success := true }, StorageManager.deleteWord id s)
  | .getSettings =>
      ({ success := true, settings := some (StorageManager.getSettings s) }, s)
  | .updateSettings u =>
      let s1 := StorageManager.updateSettings u s
      ({ success := true, settings := some (StorageManager.getSettings s1) }, s1)
  | .getStats =>
      ({ success := true, stats := some (StorageManager.getStats s) }, s)
  | .incrementSeenCount w =>
      ({ success := true }, StorageManager.incrementSeenCount w ctx.now ctx.today s)
  | .incrementUsedCount w =>
      ({ success := true }, StorageManager.incrementUsedCount w ctx.today s)
  | .addRecentlySeen w sen url =>
      ({ success := true }, StorageManager.addRecentlySeen w sen url ctx.now s)
  | .exportData =>
      ({ success := true, data := some (StorageManager.exportVocabulary ctx.today s) }, s)
  | .importData d =>
      ({ success := true }, StorageManager.importVocabulary d s)
  | .clearAllData =>
      ({ success := true }, StorageManager.clearAllData s)
  | .other a =>
      if aiActions.contains a then ({ success := true, externalAI := true }, s)
      else ({ success := false, error := some "Unknown action" }, s)

/-!
Content-script word-tracking batcher (`src/content/content.js`,
`scheduleWordTrackingUpdate` lines 386-397, `flushWordTrackingUpdates`
lines 399-411, queueing in `createHighlightElement` lines 194-205).
-/

/-- One element of `pendingWordUpdates` (`content.js` lines 195-202). -/
structure WordUpdate where
  word : String
  incrementSeen : Bool := true
  recentlySeenPayload : Option (String × String) := none
deriving DecidableEq, Repr

/-- In-memory batcher state: the `pendingWordUpdates` array and the
pending `setTimeout` deadline (`none` = no timer scheduled). -/
structure BatcherState where
  pending : List WordUpdate := []
  timerDeadline : Option Nat := none
deriving DecidableEq, Repr

/-- The 2000 ms quiet period of `scheduleWordTrackingUpdate`
(`content.js` line 396). -/
def WORD_TRACKING_DELAY : Nat := 2000

/-- The action string of the flush message (`content.js` line 402).
`handleMessage` has no case for it. -/
def wordTrackingFlushAction : String := "batchUpdateWordTracking"

/-- The action string of the stats flush message (`content.js` line 373).
`handleMessage` has no case for it either. -/
def statsFlushAction : String := "batchUpdateStats"

/-- `scheduleWordTrackingUpdate` (`content.js` lines 386-397):
`clearTimeout` on any previous timer, then re-arm for `now + 2000`. -/
def scheduleWordTrackingUpdate (now : Nat) (st : BatcherState) : BatcherState :=
  { st with timerDeadline := some (now + WORD_TRACKING_DELAY) }

/-- `flushWordTrackingUpdates` (`content.js` lines 399-411): when the
accumulator is nonempty, send one message carrying a copy of it and reset
it to empty; otherwise send nothing. Returns the sent batch, if any. -/
def flushWordTrackingUpdates (st : BatcherState) :
    Option (List WordUpdate) × BatcherState :=
  if st.pending.isEmpty then (none, { st with timerDeadline := none })
  else (some st.pending, { pending := [], timerDeadline := none })

/-- Queue one seen event: push onto `pendingWordUpdates`, then reschedule
(`createHighlightElement`, `content.js` lines 194-205). -/
def queueWordUpdate (u : WordUpdate) (now : Nat) (st : BatcherState) :
    BatcherState :=
  scheduleWordTrackingUpdate now { st with pending := st.pending ++ [u] }

/-- Single-threaded timeline of the batcher: deliver timestamped events in
order; whenever the armed timer's deadline falls at or before the next
event (or the final horizon), the timeout fires first and flushes.
Returns the list of flush batches sent, in order, and the final state. -/
def runBatcher (st : BatcherState) (evs : List (Nat × WordUpdate))
    (horizon : Nat) : List (List WordUpdate) × BatcherState :=
  match evs with
  | [] =>
      match st.timerDeadline with
      | some d =>
          if d ≤ horizon then
            let r := flushWordTrackingUpdates st
            ((match r.1 with | some b => [b] | none => []), r.2)
          else ([], st)
      | none => ([], st)
  | (t, u) :: rest =>
      match st.timerDeadline with
      | some d =>
          if d ≤ t then
            let r := flushWordTrackingUpdates st
            let k := runBatcher (queueWordUpdate u t r.2) rest horizon
            ((match r.1 with | some b => [b] | none => []) ++ k.1, k.2)
          else runBatcher (queueWordUpdate u t st) rest horizon
      | none => runBatcher (queueWordUpdate u t st) rest horizon

/-!
Per-session seen-event guard (`createHighlightElement`, `content.js`
lines 186-210): `seenWordsThisSession` holds lowercased keys; a "seen"
event is queued only when the key is new. The event payload carries the
word as matched; the sentence and URL parts do not affect emission and
are elided here.
-/

/-- Membership in the `seenWordsThisSession` set. -/
def hasKey : List String → String → Bool
  | [], _ => false
  | k :: ks, x => k == x || hasKey ks x

/-- Fold the guard of `createHighlightElement` over the words of the
markers created during a session, in creation order; returns the "seen"
events emitted. A new session starts with the set empty. -/
def sessionEmit (seen : List String) : List String → List String
  | [] => []
  | w :: ws =>
      if hasKey seen (lowerString w) then sessionEmit seen ws
      else w :: sessionEmit (lowerString w :: seen) ws

/-!
Highlighter (`src/content/content.js`): `createWordPattern` (lines
124-134), `highlightVocabulary` (lines 64-122), `highlightTextNode`
(lines 136-172), `createHighlightElement` (lines 174-213).

The pattern `new RegExp('\\b(' + alternatives + ')\\b', 'gi')` is built
once per run and shared. Its alternatives are vocabulary words with regex
metacharacters backslash-escaped, sorted longest first by a stable sort.
Matching is modelled directly: an escaped alternative matches literally
and case-insensitively, `\b` is a word-boundary test, alternatives are
tried in list order at each position, and scanning is left to right.

Statefulness of the shared `g`-flagged regex is part of the model:
`pattern.test` starts searching at the regex's `lastIndex`, sets it to
the match end on success, and resets it to 0 on failure;
`String.prototype.matchAll` clones the regex, the clone inheriting the
current `lastIndex`, and leaves the original untouched.
-/

/-- JavaScript `\w` (letters, digits, underscore). -/
def isWordChar (c : Char) : Bool :=
  c.isAlphanum || c == '_'

/-- The metacharacters escaped by `createWordPattern` line 129. -/
def regexMeta : List Char :=
  ['.', '*', '+', '?', '^', '$', '\x7b', '\x7d', '(', ')', '|', '[', ']', '\\']

def escapeRegexAux : List Char → List Char
  | [] => []
  | c :: cs =>
      if regexMeta.contains c then '\\' :: c :: escapeRegexAux cs
      else c :: escapeRegexAux cs

/-- `word.replace(/[.*+?^$\x7b\x7d()|[\]\\]/g, '\\$&')`
(`content.js` line 129). -/
def escapeRegex (s : String) : String :=
  ⟨escapeRegexAux s.data⟩

/-- Stable insertion preserving longer-first order: an element inserted
from the left of the original list passes over strictly longer ones and
lands before equal-length ones. -/
def insertByLenDesc (w : String) : List String → List String
  | [] => [w]
  | x :: xs =>
      if w.length < x.length then x :: insertByLenDesc w xs
      else w :: x :: xs

/-- Stable sort by length, longest first — the semantics of
`.sort((a, b) => b.length - a.length)` on line 130 (JavaScript sort is
stable). -/
def sortByLenDesc : List String → List String
  | [] => []
  | x :: xs => insertByLenDesc x (sortByLenDesc xs)

/-- `createWordPattern` (`content.js` lines 124-134): `null` on an empty
word list, otherwise the ordered alternative list of the built pattern. -/
def createWordPattern (words : List String) : Option (List String) :=
  if words.isEmpty then none
  else some (sortByLenDesc (words.map escapeRegex))

/-- Is the character at index `i` (if any) a word character? -/
def isWordAt (text : List Char) (i : Nat) : Bool :=
  match text.get? i with
  | some c => isWordChar c
  | none => false

/-- `\b` at position `i`: word-character status changes between the
previous character and the current one (string edges count as non-word). -/
def wbAt (text : List Char) (i : Nat) : Bool :=
  (if i = 0 then false else isWordAt text (i - 1)) != isWordAt text i

/-- Match one escaped-literal alternative against a text suffix,
case-insensitively; returns the number of characters consumed. -/
def litMatch : List Char → List Char → Option Nat
  | [], _ => some 0
  | '\\' :: rest, ts =>
      match rest, ts with
      | c :: alt, t :: ts2 =>
          if c.toLower == t.toLower then (litMatch alt ts2).map (· + 1) else none
      | _, _ => none
  | c :: alt, ts =>
      match ts with
      | t :: ts2 =>
          if c.toLower == t.toLower then (litMatch alt ts2).map (· + 1) else none
      | [] => none

/-- Try the alternatives of the group in order at position `i`; an
alternative succeeds when it matches literally and the trailing `\b`
holds (on its failure the regex engine backtracks to the next one). -/
def tryAlts (alts : List (List Char)) (text : List Char) (i : Nat) : Option Nat :=
  match alts with
  | [] => none
  | a :: rest =>
      match litMatch a (text.drop i) with
      | some n => if wbAt text (i + n) then some n else tryAlts rest text i
      | none => tryAlts rest text i

/-- A match of the whole pattern `\b(alts)\b` starting exactly at `i`. -/
def patternMatchAt (alts : List (List Char)) (text : List Char) (i : Nat) :
    Option Nat :=
  if wbAt text i then tryAlts alts text i else none

/-- Leftmost match at or after position `i` (fuelled scan over the
positions `i, i+1, …, text.length`); returns start index and length. -/
def firstMatchFrom (alts : List (List Char)) (text : List Char) :
    Nat → Nat → Option (Nat × Nat)
  | 0, _ => none
  | fuel + 1, i =>
      if i > text.length then none
      else
        match patternMatchAt alts text i with
        | some n => some (i, n)
        | none => firstMatchFrom alts text fuel (i + 1)

/-- `pattern.test(text)` on a `g`-flagged regex with current `lastIndex`
`li`: returns the verdict and the updated `lastIndex` (match end on
success, 0 on failure). -/
def regexTestG (alts : List (List Char)) (text : List Char) (li : Nat) :
    Bool × Nat :=
  match firstMatchFrom alts text (text.length + 1 - li) li with
  | some m => (true, m.1 + m.2)
  | none => (false, 0)

/-- `text.matchAll(pattern)`: the clone starts at the inherited
`lastIndex` `li`; empty matches advance by one position
(`AdvanceStringIndex`). -/
def matchAllFrom (alts : List (List Char)) (text : List Char) :
    Nat → Nat → List (Nat × Nat)
  | 0, _ => []
  | fuel + 1, i =>
      match firstMatchFrom alts text (text.length + 1 - i) i with
      | none => []
      | some m =>
          if m.2 = 0 then m :: matchAllFrom alts text fuel (m.1 + 1)
          else m :: matchAllFrom alts text fuel (m.1 + m.2)

/-- Flattened DOM content under `document.body`, in document order. -/
inductive DomItem where
  /-- a plain text node eligible for highlighting -/
  | text (s : String)
  /-- a `span.situ-highlight` marker: visible content and its
  `data-word` attribute -/
  | marker (content : String) (dataWord : String)
  /-- text inside `script`/`style`/`noscript`/`iframe` -/
  | skipped (s : String)
deriving DecidableEq, Repr

/-- Walk phase of `highlightVocabulary` (lines 74-116): the TreeWalker
visits every text node in order; `acceptNode` rejects marker and skipped
text before touching the pattern, and otherwise calls `pattern.test`,
threading the shared `lastIndex`. Returns the accept flags and the final
`lastIndex`. -/
def walkPhase (alts : List (List Char)) :
    List DomItem → Nat → List Bool × Nat
  | [], li => ([], li)
  | item :: rest, li =>
      match item with
      | .text s =>
          let r := regexTestG alts s.data li
          let k := walkPhase alts rest r.2
          (r.1 :: k.1, k.2)
      | _ =>
          let k := walkPhase alts rest li
          (false :: k.1, k.2)

/-- Fragment construction of `highlightTextNode` (lines 142-168): plain
text between matches, and for each match a marker whose content is the
matched text and whose identity key is its lowercase form
(`createHighlightElement`, lines 174-178). -/
def renderMatches (cs : List Char) : Nat → List (Nat × Nat) → List DomItem
  | lastIndex, [] =>
      if lastIndex < cs.length then [.text ⟨cs.drop lastIndex⟩] else []
  | lastIndex, m :: ms =>
      let matchText : String := ⟨(cs.drop m.1).take m.2⟩
      (if m.1 > lastIndex then [DomItem.text ⟨(cs.drop lastIndex).take (m.1 - lastIndex)⟩] else [])
        ++ [DomItem.marker matchText (lowerString matchText)]
        ++ renderMatches cs (m.1 + m.2) ms

/-- `highlightTextNode` (lines 136-172): `matchAll` on the shared pattern
(clone inheriting `lastIndex` `li`); a node with no matches is left in
place unchanged. -/
def highlightTextNode (alts : List (List Char)) (li : Nat) (s : String) :
    List DomItem :=
  let ms := matchAllFrom alts s.data (s.data.length + 1) li
  if ms.isEmpty then [.text s] else renderMatches s.data 0 ms

/-- Processing loop of `highlightVocabulary` (lines 112-121): every
collected node is processed with the shared pattern, whose `lastIndex` is
by then the value `li` left behind by the walk. -/
def processPhase (alts : List (List Char)) (li : Nat) :
    List DomItem → List Bool → List DomItem
  | [], _ => []
  | item :: rest, accs =>
      (match item, accs.headD false with
       | .text s, true => highlightTextNode alts li s
       | _, _ => [item])
        ++ processPhase alts li rest (accs.tailD [])

/-- One run of `highlightVocabulary` (lines 64-122) over a page. -/
def highlightVocabulary (vocab : List VocabEntry) (page : List DomItem) :
    List DomItem :=
  if vocab.isEmpty then page
  else
    match createWordPattern (vocab.map (·.word)) with
    | none => page
    | some alts0 =>
        let alts := alts0.map String.data
        let w := walkPhase alts page 0
        processPhase alts w.2 page w.1

/-- Number of markers on a page. -/
def countMarkers (page : List DomItem) : Nat :=
  (page.filter fun item =>
    match item with
    | .marker _ _ => true
    | _ => false).length

/-!
Concrete fixtures used by the closed theorems and witnesses below.
-/

/-- A vocabulary entry with the given id and word and default metadata
(the shape `addWord` produces for a plain input). -/
def plainEntry (i w : String) : VocabEntry :=
  { id := i, word := w, definition := "", examples := [], synonyms := [],
    addedDate := 0, lastSeen := 0, seenCount := 0, usedCount := 0,
    difficulty := "intermediate", notes := "", tags := [],
    sourceUrl := "", sourceSentence := "", recentlySeen := [] }

def catEntry : VocabEntry := plainEntry "1" "cat"

def runEntry : VocabEntry := plainEntry "2" "run"

def runningEntry : VocabEntry := plainEntry "3" "running"

/-- C1: the claim says a normal (quiet-period) flush delivers every
accumulated "seen" event to the store. In the code it does not: the
content script's `flushWordTrackingUpdates` sends
`action: 'batchUpdateWordTracking'` (and `flushStatsUpdates` sends
`action: 'batchUpdateStats'`), but `handleMessage` in
`background.js` has no case for either action, so both fall to the
`default` branch: the router answers `success:false, error:'Unknown
action'` and the store is left untouched — every batched event is
dropped on normal flush (`StorageManager.batchUpdateStats` exists but
has no caller). -/
theorem c1_normal_flush_dropped_by_router (ctx : MsgCtx) (s : Store) :
    handleMessage (.other wordTrackingFlushAction) ctx s
        = ({ success := false, error := some "Unknown action" }, s)
      ∧ handleMessage (.other statsFlushAction) ctx s
        = ({ success := false, error := some "Unknown action" }, s) :=
  ⟨rfl, rfl⟩

/-- C3: the claim says one run wraps every eligible whole-word occurrence.
Counter-evaluation: with vocabulary `cat` and the single text node
`"cat cat"`, the shared `g`-flagged pattern's `lastIndex` is left at 3 by
the `pattern.test` call of `acceptNode`, `matchAll`'s clone inherits it,
and the occurrence at position 0 is silently skipped: the run wraps only
the second occurrence. -/
theorem c3_stateful_pattern_misses_first_occurrence :
    highlightVocabulary [catEntry] [.text "cat cat"]
        = [.text "cat ", .marker "cat" "cat"]
      ∧ countMarkers (highlightVocabulary [catEntry] [.text "cat cat"]) = 1 := by
  decide

/-- C4: the claim says a second highlighting pass creates no new marker.
Counter-evaluation: on the page `["cat", "cat", "dog"]` with vocabulary
`cat`, the first run misses the second `"cat"` node (the shared pattern's
`lastIndex` was 3 when that node was tested), while the second run picks
it up, creating a new marker: the pass is not idempotent. -/
theorem c4_second_pass_creates_new_marker :
    countMarkers (highlightVocabulary [catEntry]
        [.text "cat", .text "cat", .text "dog"]) = 1
      ∧ countMarkers (highlightVocabulary [catEntry] (highlightVocabulary [catEntry]
          [.text "cat", .text "cat", .text "dog"])) = 2
      ∧ highlightVocabulary [catEntry] (highlightVocabulary [catEntry]
            [.text "cat", .text "cat", .text "dog"])
          ≠ highlightVocabulary [catEntry] [.text "cat", .text "cat", .text "dog"] := by
  decide

/-- C5: longest-match-first. `createWordPattern` orders the alternatives
of `\b(...)\b` longest first, and alternatives are tried in order at each
position, so with vocabulary `run, running` the marker created on text
`"running"` wraps `"running"`, not `"run"`. -/
theorem c5_longest_match_first :
    createWordPattern ["run", "running"] = some ["running", "run"]
      ∧ highlightVocabulary [runEntry, runningEntry] [.text "running", .text "."]
        = [.marker "running" "running", .text "."] := by
  decide

/-- C9: export-then-import round-trip. Exporting the full data set and
importing the result reproduces the same `getVocabulary`, `getSettings`
and `getStats` views, for every store state (incomplete stored settings
are completed by the defaults on export and re-stored complete). -/
theorem c9_export_import_roundtrip (s : Store) (exportDate : String) :
    StorageManager.getVocabulary
        (StorageManager.importVocabulary
          (StorageManager.toImportData (StorageManager.exportVocabulary exportDate s)) s)
        = StorageManager.getVocabulary s
      ∧ StorageManager.getSettings
        (StorageManager.importVocabulary
          (StorageManager.toImportData (StorageManager.exportVocabulary exportDate s)) s)
        = StorageManager.getSettings s
      ∧ StorageManager.getStats
        (StorageManager.importVocabulary
          (StorageManager.toImportData (StorageManager.exportVocabulary exportDate s)) s)
        = StorageManager.getStats s :=
  ⟨rfl, rfl, rfl⟩

/-- C8: adding a word whose lowercase form equals that of a stored word
fails with the duplicate-word error and performs no write: `addWord`
returns `success:false, error:'Word already exists'` before touching the
store. -/
theorem c8_duplicate_add_word_fails (s : Store) (wd : WordData)
    (freshId : String) (now : Nat) (today : String)
    (h : ∃ item ∈ StorageManager.getVocabulary s,
      lowerString item.word = lowerString wd.word) :
    (StorageManager.addWord wd freshId now today s).1.success = false
      ∧ (StorageManager.addWord wd freshId now today s).1.error
        = some "Word already exists"
      ∧ (StorageManager.addWord wd freshId now today s).2 = s := by
  obtain ⟨item, hmem, heq⟩ := h
  have hsome : ((StorageManager.getVocabulary s).find?
      (fun item => lowerString item.word == lowerString wd.word)).isSome := by
    rw [List.find?_isSome]
    exact ⟨item, hmem, by simp [heq]⟩
  obtain ⟨e, he⟩ := Option.isSome_iff_exists.mp hsome
  simp [StorageManager.addWord, he]

def storeWithCat : Store := { vocabRaw := some [catEntry] }

def upperCatInput : WordData := { word := "CAT" }

/-- Witness for C8 at a concrete store holding `cat` and the input `CAT`. -/
theorem c8_witness :
    (∃ item ∈ StorageManager.getVocabulary storeWithCat,
      lowerString item.word = lowerString upperCatInput.word)
      ∧ ((StorageManager.addWord upperCatInput "id9" 5 "2024-01-01" storeWithCat).1.success = false
        ∧ (StorageManager.addWord upperCatInput "id9" 5 "2024-01-01" storeWithCat).1.error
          = some "Word already exists"
        ∧ (StorageManager.addWord upperCatInput "id9" 5 "2024-01-01" storeWithCat).2 = storeWithCat) :=
  ⟨by decide, c8_duplicate_add_word_fails storeWithCat upperCatInput "id9" 5 "2024-01-01" (by decide)⟩

/-- C10: for a word matching no stored item case-insensitively,
`incrementSeenCount`, `incrementUsedCount` and `addRecentlySeen` are
silent no-ops (store unchanged, no error), and the router still answers
`success:true` for each of the three actions. -/
theorem c10_unknown_word_increments_noop (s : Store) (w sentence url : String)
    (ctx : MsgCtx)
    (h : ∀ item ∈ StorageManager.getVocabulary s,
      lowerString item.word ≠ lowerString w) :
    StorageManager.incrementSeenCount w ctx.now ctx.today s = s
      ∧ StorageManager.incrementUsedCount w ctx.today s = s
      ∧ StorageManager.addRecentlySeen w sentence url ctx.now s = s
      ∧ handleMessage (.incrementSeenCount w) ctx s = ({ success := true }, s)
      ∧ handleMessage (.incrementUsedCount w) ctx s = ({ success := true }, s)
      ∧ handleMessage (.addRecentlySeen w sentence url) ctx s = ({ success := true }, s) := by
  have hnone : (StorageManager.getVocabulary s).find? (StorageManager.matchesWord w) = none := by
    rw [List.find?_eq_none]
    intro item hmem
    simp [StorageManager.matchesWord, h item hmem]
  refine ⟨?_, ?_, ?_, ?_, ?_, ?_⟩ <;>
    simp [handleMessage, StorageManager.incrementSeenCount,
      StorageManager.incrementUsedCount, StorageManager.addRecentlySeen, hnone]

def storeWithDog : Store := { vocabRaw := some [plainEntry "7" "dog"] }

/-- Witness for C10 at a concrete store holding only `dog` and the
unknown word `cat`. -/
theorem c10_witness :
    (∀ item ∈ StorageManager.getVocabulary storeWithDog,
      lowerString item.word ≠ lowerString "cat")
      ∧ (StorageManager.incrementSeenCount "cat" 0 "" storeWithDog = storeWithDog
        ∧ StorageManager.incrementUsedCount "cat" "" storeWithDog = storeWithDog
        ∧ StorageManager.addRecentlySeen "cat" "s" "u" 0 storeWithDog = storeWithDog
        ∧ handleMessage (.incrementSeenCount "cat") {} storeWithDog
          = ({ success := true }, storeWithDog)
        ∧ handleMessage (.incrementUsedCount "cat") {} storeWithDog
          = ({ success := true }, storeWithDog)
        ∧ handleMessage (.addRecentlySeen "cat" "s" "u") {} storeWithDog
          = ({ success := true }, storeWithDog)) :=
  ⟨by decide, c10_unknown_word_increments_noop storeWithDog "cat" "s" "u" {} (by decide)⟩

/-- The events of a batch arrive "within the quiet window": each event
falls at or after the previous one and strictly before the previous
event's 2000 ms timer deadline, so no intermediate timeout fires. -/
def chainOk : Nat → List (Nat × WordUpdate) → Bool
  | _, [] => true
  | prev, (t, _) :: rest =>
      (decide (prev ≤ t) && decide (t < prev + WORD_TRACKING_DELAY)) && chainOk t rest

/-- Arrival time of the last event of the timeline. -/
def lastTime : Nat → List (Nat × WordUpdate) → Nat
  | t, [] => t
  | _, (t, _) :: rest => lastTime t rest

theorem runBatcher_armed (rest : List (Nat × WordUpdate)) :
    ∀ (p : List WordUpdate) (tprev horizon : Nat), p ≠ [] →
      chainOk tprev rest = true →
      lastTime tprev rest + WORD_TRACKING_DELAY ≤ horizon →
      runBatcher ⟨p, some (tprev + WORD_TRACKING_DELAY)⟩ rest horizon
        = ([p ++ rest.map Prod.snd], ⟨[], none⟩) := by
  induction rest with
  | nil =>
      intro p tprev horizon hp _ hhor
      simp only [lastTime] at hhor
      simp [runBatcher, hhor, flushWordTrackingUpdates, List.isEmpty_eq_false.mpr hp]
  | cons ev rest ih =>
      intro p tprev horizon hp hchain hhor
      obtain ⟨t, u⟩ := ev
      simp only [chainOk, Bool.and_eq_true, decide_eq_true_eq] at hchain
      obtain ⟨⟨hle, hlt⟩, hchain⟩ := hchain
      simp only [lastTime] at hhor
      have hnd : ¬ (tprev + WORD_TRACKING_DELAY ≤ t) := by omega
      simp only [runBatcher, hnd, if_neg hnd, queueWordUpdate, scheduleWordTrackingUpdate]
      rw [if_neg not_false]
      rw [ih (p ++ [u]) t horizon (by simp) hchain hhor]
      simp

/-- C7: N ≥ 1 "seen" events arriving within the batcher's 2000 ms quiet
window produce exactly one flush, carrying all N accumulated events in
order, after which the accumulator is empty; a further timeout on the
empty accumulator sends nothing. -/
theorem c7_single_flush_carries_all_events (t0 : Nat) (u0 : WordUpdate)
    (rest : List (Nat × WordUpdate)) (horizon : Nat)
    (hchain : chainOk t0 rest = true)
    (hhor : lastTime t0 rest + WORD_TRACKING_DELAY ≤ horizon) :
    runBatcher {} ((t0, u0) :: rest) horizon
        = ([u0 :: rest.map Prod.snd], ⟨[], none⟩)
      ∧ flushWordTrackingUpdates ⟨[], none⟩ = (none, ⟨[], none⟩) := by
  constructor
  · have h := runBatcher_armed rest [u0] t0 horizon (by simp) hchain hhor
    simpa [runBatcher, queueWordUpdate, scheduleWordTrackingUpdate] using h
  · rfl

/-- Witness for C7: three events at 0 ms, 1 ms and 2 ms, observed past
the final deadline, yield one flush with all three events. -/
theorem c7_witness :
    (chainOk 0 [(1, ⟨"b", true, none⟩), (2, ⟨"c", true, none⟩)] = true
      ∧ lastTime 0 [(1, ⟨"b", true, none⟩), (2, ⟨"c", true, none⟩)]
          + WORD_TRACKING_DELAY ≤ 2002)
      ∧ (runBatcher {} [(0, ⟨"a", true, none⟩), (1, ⟨"b", true, none⟩), (2, ⟨"c", true, none⟩)] 2002
          = ([[⟨"a", true, none⟩, ⟨"b", true, none⟩, ⟨"c", true, none⟩]], ⟨[], none⟩)
        ∧ flushWordTrackingUpdates ⟨[], none⟩ = (none, ⟨[], none⟩)) :=
  ⟨⟨by decide, by decide⟩,
    c7_single_flush_carries_all_events 0 ⟨"a", true, none⟩
      [(1, ⟨"b", true, none⟩), (2, ⟨"c", true, none⟩)] 2002 (by decide) (by decide)⟩

theorem sessionEmit_countP (w : String) : ∀ (ws seen : List String),
    (sessionEmit seen ws).countP (fun e => lowerString e == lowerString w)
      = if hasKey seen (lowerString w) then 0
        else if ws.any (fun e => lowerString e == lowerString w) then 1 else 0 := by
  intro ws
  induction ws with
  | nil => intro seen; simp [sessionEmit]
  | cons w' ws ih =>
      intro seen
      simp only [sessionEmit]
      cases hk : hasKey seen (lowerString w') with
      | true =>
          rw [if_pos rfl]
          rw [ih seen]
          by_cases hw : lowerString w' = lowerString w
          · rw [hw] at hk
            simp [hk]
          · simp [List.any_cons, hw]
      | false =>
          rw [if_neg (by simp)]
          rw [List.countP_cons]
          rw [ih (lowerString w' :: seen)]
          by_cases hw : lowerString w' = lowerString w
          · rw [hw] at hk
            have hk2 : hasKey (lowerString w :: seen) (lowerString w) = true := by
              simp [hasKey]
            rw [hw]
            simp [hk2, hk, List.any_cons, hw]
          · have hk2 : hasKey (lowerString w' :: seen) (lowerString w)
                = hasKey seen (lowerString w) := by
              simp [hasKey, hw]
            simp [hk2, List.any_cons, hw]

theorem sessionEmit_find? (w : String) : ∀ (ws seen : List String),
    hasKey seen (lowerString w) = false →
    (sessionEmit seen ws).find? (fun e => lowerString e == lowerString w)
      = ws.find? (fun e => lowerString e == lowerString w) := by
  intro ws
  induction ws with
  | nil => intro seen _; rfl
  | cons w' ws ih =>
      intro seen hseen
      simp only [sessionEmit]
      cases hk : hasKey seen (lowerString w') with
      | true =>
          rw [if_pos rfl]
          rw [ih seen hseen]
          by_cases hw : lowerString w' = lowerString w
          · rw [hw] at hk
            rw [hk] at hseen
            exact absurd hseen (by simp)
          · rw [List.find?_cons_of_neg _ (by simp [hw])]
      | false =>
          rw [if_neg (by simp)]
          by_cases hw : lowerString w' = lowerString w
          · rw [List.find?_cons_of_pos _ (by simp [hw]),
              List.find?_cons_of_pos _ (by simp [hw])]
          · rw [List.find?_cons_of_neg _ (by simp [hw]),
              List.find?_cons_of_neg _ (by simp [hw])]
            exact ih (lowerString w' :: seen) (by simp [hasKey, hw, hseen])

/-- C6: over the markers a session creates (in creation order, across all
highlighting passes), the guard of `createHighlightElement` emits exactly
one "seen" event for a word when some marker for it is created and none
otherwise, and that event is the one for the first such marker; a new
session starts with `seenWordsThisSession` empty (the `[]` below). -/
theorem c6_seen_event_once_per_session (ws : List String) (w : String) :
    (sessionEmit [] ws).countP (fun e => lowerString e == lowerString w)
        = (if ws.any (fun e => lowerString e == lowerString w) then 1 else 0)
      ∧ (sessionEmit [] ws).find? (fun e => lowerString e == lowerString w)
        = ws.find? (fun e => lowerString e == lowerString w) := by
  constructor
  · have h := sessionEmit_countP w ws []
    simpa [hasKey] using h
  · exact sessionEmit_find? w ws [] rfl

/-!
Claim C2: store-operation sequences and the vocabulary invariant.
`StoreOp` ranges over exactly the operations the claim names; `goodOp`
carves out the subset for which the invariant is actually preserved.
-/

/-- Case-insensitive identity key of a stored item. -/
def entryKey (e : VocabEntry) : String := lowerString e.word

/-- The identity keys of the stored collection, in order. -/
def wordKeys (s : Store) : List String :=
  (StorageManager.getVocabulary s).map entryKey

/-- The claimed invariant: keys pairwise distinct (case-insensitive
uniqueness) and collection size at most `MAX_VOCABULARY_SIZE`. -/
def vocabInvariant (s : Store) : Prop :=
  (wordKeys s).Nodup
    ∧ (StorageManager.getVocabulary s).length ≤ MAX_VOCABULARY_SIZE

/-- One store operation of the kinds the claim quantifies over, with its
ambient timestamp/date/id inputs. -/
inductive StoreOp where
  | addWord (wordData : WordData) (freshId : String) (now : Nat) (today : String)
  | updateWord (id : String) (updates : StorageManager.WordUpdates)
  | deleteWord (id : String)
  | incrementSeenCount (word : String) (now : Nat) (today : String)
  | incrementUsedCount (word : String) (today : String)
  | addRecentlySeen (word sentence url : String) (now : Nat)
  | importVocabulary (data : StorageManager.ImportData)
deriving DecidableEq, Repr

/-- State effect of one operation (the response part is dropped). -/
def applyOp (op : StoreOp) (s : Store) : Store :=
  match op with
  | .addWord wd fid now today => (StorageManager.addWord wd fid now today s).2
  | .updateWord id u => (StorageManager.updateWord id u s).2
  | .deleteWord id => StorageManager.deleteWord id s
  | .incrementSeenCount w now today => StorageManager.incrementSeenCount w now today s
  | .incrementUsedCount w today => StorageManager.incrementUsedCount w today s
  | .addRecentlySeen w sen url now => StorageManager.addRecentlySeen w sen url now s
  | .importVocabulary d => StorageManager.importVocabulary d s

/-- Run a sequence of operations left to right. -/
def applyOps (ops : List StoreOp) (s : Store) : Store :=
  ops.foldl (fun s op => applyOp op s) s

/-- Operations that preserve the invariant: `addWord` only for inputs the
code stores as checked (`addWord` checks duplicates against the raw input
but stores it trimmed, so untrimmed inputs can smuggle in duplicates),
`updateWord` only when the update leaves the `word` field alone (the
spread can overwrite it unchecked), and no `importVocabulary` (it stores
the given data verbatim with no validation). -/
def goodOp : StoreOp → Bool
  | .addWord wd _ _ _ => trimString wd.word == wd.word
  | .updateWord _ u => u.word.isNone
  | .importVocabulary _ => false
  | _ => true

instance (s : Store) : Decidable (vocabInvariant s) := by
  unfold vocabInvariant
  infer_instance

/-- C2 counterexample: the claim quantifies over all sequences of the
named operations from the empty collection, but a single
`importVocabulary` whose data holds `dup` and `DUP` yields a collection
violating case-insensitive uniqueness — `importVocabulary` writes the
given vocabulary verbatim. -/
theorem c2_counterexample_import_duplicates :
    ¬ vocabInvariant
      (applyOps [.importVocabulary
        { vocabulary := some [plainEntry "a1" "dup", plainEntry "a2" "DUP"] }]
        emptyStore) := by
  decide

theorem updateFirstBy_map_eq (g : α → β) (p : α → Bool) (f : α → α)
    (hf : ∀ a, g (f a) = g a) :
    ∀ l : List α, (StorageManager.updateFirstBy p f l).map g = l.map g := by
  intro l
  induction l with
  | nil => rfl
  | cons x xs ih =>
      simp only [StorageManager.updateFirstBy]
      split <;> simp [hf, ih]

theorem updateFirstBy_length (p : α → Bool) (f : α → α) :
    ∀ l : List α, (StorageManager.updateFirstBy p f l).length = l.length := by
  intro l
  induction l with
  | nil => rfl
  | cons x xs ih =>
      simp only [StorageManager.updateFirstBy]
      split <;> simp [ih]

theorem getVocabulary_updateStats (k : String) (i : Nat) (d : String) (s : Store) :
    StorageManager.getVocabulary (StorageManager.updateStats k i d s)
      = StorageManager.getVocabulary s := rfl

theorem addWord_preserves (wd : WordData) (fid : String) (now : Nat)
    (today : String) (s : Store) (htrim : trimString wd.word = wd.word)
    (hinv : vocabInvariant s) :
    vocabInvariant (applyOp (.addWord wd fid now today) s) := by
  cases hf : (StorageManager.getVocabulary s).find?
      (fun item => lowerString item.word == lowerString wd.word) with
  | some e =>
      have : applyOp (.addWord wd fid now today) s = s := by
        simp [applyOp, StorageManager.addWord, hf]
      rw [this]; exact hinv
  | none =>
      by_cases hlen :
          (StorageManager.getVocabulary s).length ≥ MAX_VOCABULARY_SIZE
      · have : applyOp (.addWord wd fid now today) s = s := by
          simp [applyOp, StorageManager.addWord, hf, hlen]
        rw [this]; exact hinv
      · have hf2 : (s.vocabRaw.getD []).find?
            (fun item => lowerString item.word == lowerString wd.word) = none := hf
        have hlen2 : ¬ (s.vocabRaw.getD []).length ≥ MAX_VOCABULARY_SIZE := hlen
        have hv : StorageManager.getVocabulary (applyOp (.addWord wd fid now today) s)
            = StorageManager.getVocabulary s ++ [StorageManager.mkNewWord wd fid now] := by
          simp [applyOp, StorageManager.addWord, hf2, hlen2,
            StorageManager.updateStats, StorageManager.getVocabulary]
        have hnotmem : lowerString wd.word ∉ wordKeys s := by
          intro hmem
          obtain ⟨item, hitem, hkey⟩ := List.mem_map.mp hmem
          have := List.find?_eq_none.mp hf item hitem
          simp only [entryKey] at hkey
          simp [hkey] at this
        obtain ⟨hnd, hle⟩ := hinv
        constructor
        · rw [wordKeys, hv, List.map_append]
          rw [List.nodup_append]
          refine ⟨hnd, by simp, ?_⟩
          intro a ha
          simp only [List.map_cons, List.map_nil, List.mem_singleton]
          intro hb
          rw [hb] at ha
          have : entryKey (StorageManager.mkNewWord wd fid now)
              = lowerString wd.word := by
            simp [entryKey, StorageManager.mkNewWord, htrim]
          rw [this] at ha
          exact hnotmem ha
        · rw [hv, List.length_append]
          simp only [List.length_singleton]
          omega

theorem updateWord_preserves (id : String) (u : StorageManager.WordUpdates)
    (s : Store) (hu : u.word = none) (hinv : vocabInvariant s) :
    vocabInvariant (applyOp (.updateWord id u) s) := by
  cases hf : (StorageManager.getVocabulary s).find? (fun item => item.id == id) with
  | none =>
      have hf2 : (s.vocabRaw.getD []).find? (fun item => item.id == id) = none := hf
      have : applyOp (.updateWord id u) s = s := by
        simp [applyOp, StorageManager.updateWord, hf2, StorageManager.getVocabulary]
      rw [this]; exact hinv
  | some e =>
      have hf2 : (s.vocabRaw.getD []).find? (fun item => item.id == id) = some e := hf
      have hkey : ∀ a, entryKey (StorageManager.mergeEntry a u) = entryKey a := by
        intro a
        simp [entryKey, StorageManager.mergeEntry, hu]
      have hv : StorageManager.getVocabulary (applyOp (.updateWord id u) s)
          = StorageManager.updateFirstBy (fun item => item.id == id)
              (fun item => StorageManager.mergeEntry item u)
              (StorageManager.getVocabulary s) := by
        simp [applyOp, StorageManager.updateWord, hf2, StorageManager.getVocabulary]
      obtain ⟨hnd, hle⟩ := hinv
      constructor
      · rw [wordKeys, hv, updateFirstBy_map_eq entryKey _ _ hkey]
        exact hnd
      · rw [hv, updateFirstBy_length]
        exact hle

theorem deleteWord_preserves (id : String) (s : Store)
    (hinv : vocabInvariant s) :
    vocabInvariant (applyOp (.deleteWord id) s) := by
  have hv : StorageManager.getVocabulary (applyOp (.deleteWord id) s)
      = (StorageManager.getVocabulary s).filter (fun item => !(item.id == id)) := by
    simp [applyOp, StorageManager.deleteWord, StorageManager.getVocabulary]
  obtain ⟨hnd, hle⟩ := hinv
  constructor
  · rw [wordKeys, hv]
    exact hnd.sublist ((List.filter_sublist _).map entryKey)
  · rw [hv]
    exact le_trans (List.length_filter_le _ _) hle

theorem incrementSeenCount_preserves (w : String) (now : Nat) (today : String)
    (s : Store) (hinv : vocabInvariant s) :
    vocabInvariant (applyOp (.incrementSeenCount w now today) s) := by
  by_cases hf : ((StorageManager.getVocabulary s).find?
      (StorageManager.matchesWord w)).isSome
  · have hf2 : ((s.vocabRaw.getD []).find? (StorageManager.matchesWord w)).isSome = true := hf
    have hv : StorageManager.getVocabulary (applyOp (.incrementSeenCount w now today) s)
        = StorageManager.updateFirstBy (StorageManager.matchesWord w)
            (fun item => { item with seenCount := item.seenCount + 1, lastSeen := now })
            (StorageManager.getVocabulary s) := by
      simp [applyOp, StorageManager.incrementSeenCount, hf2,
        StorageManager.updateStats, StorageManager.getVocabulary]
    have hkey : ∀ a : VocabEntry,
        entryKey { a with seenCount := a.seenCount + 1, lastSeen := now } = entryKey a :=
      fun _ => rfl
    obtain ⟨hnd, hle⟩ := hinv
    constructor
    · rw [wordKeys, hv, updateFirstBy_map_eq entryKey _ _ hkey]
      exact hnd
    · rw [hv, updateFirstBy_length]
      exact hle
  · have hf2 : ¬ ((s.vocabRaw.getD []).find? (StorageManager.matchesWord w)).isSome = true := hf
    have : applyOp (.incrementSeenCount w now today) s = s := by
      simp [applyOp, StorageManager.incrementSeenCount, hf2, StorageManager.getVocabulary]
    rw [this]; exact hinv

theorem incrementUsedCount_preserves (w : String) (today : String)
    (s : Store) (hinv : vocabInvariant s) :
    vocabInvariant (applyOp (.incrementUsedCount w today) s) := by
  by_cases hf : ((StorageManager.getVocabulary s).find?
      (StorageManager.matchesWord w)).isSome
  · have hf2 : ((s.vocabRaw.getD []).find? (StorageManager.matchesWord w)).isSome = true := hf
    have hv : StorageManager.getVocabulary (applyOp (.incrementUsedCount w today) s)
        = StorageManager.updateFirstBy (StorageManager.matchesWord w)
            (fun item => { item with usedCount := item.usedCount + 1 })
            (StorageManager.getVocabulary s) := by
      simp [applyOp, StorageManager.incrementUsedCount, hf2,
        StorageManager.updateStats, StorageManager.getVocabulary]
    have hkey : ∀ a : VocabEntry,
        entryKey { a with usedCount := a.usedCount + 1 } = entryKey a :=
      fun _ => rfl
    obtain ⟨hnd, hle⟩ := hinv
    constructor
    · rw [wordKeys, hv, updateFirstBy_map_eq entryKey _ _ hkey]
      exact hnd
    · rw [hv, updateFirstBy_length]
      exact hle
  · have hf2 : ¬ ((s.vocabRaw.getD []).find? (StorageManager.matchesWord w)).isSome = true := hf
    have : applyOp (.incrementUsedCount w today) s = s := by
      simp [applyOp, StorageManager.incrementUsedCount, hf2, StorageManager.getVocabulary]
    rw [this]; exact hinv

theorem addRecentlySeen_preserves (w sentence url : String) (now : Nat)
    (s : Store) (hinv : vocabInvariant s) :
    vocabInvariant (applyOp (.addRecentlySeen w sentence url now) s) := by
  have hkey : ∀ a, entryKey (StorageManager.pushRecent sentence url now a) = entryKey a := by
    intro a
    simp only [entryKey, StorageManager.pushRecent]
    split <;> rfl
  by_cases hf : ((StorageManager.getVocabulary s).find?
      (StorageManager.matchesWord w)).isSome
  · have hf2 : ((s.vocabRaw.getD []).find? (StorageManager.matchesWord w)).isSome = true := hf
    have hv : StorageManager.getVocabulary (applyOp (.addRecentlySeen w sentence url now) s)
        = StorageManager.updateFirstBy (StorageManager.matchesWord w)
            (StorageManager.pushRecent sentence url now)
            (StorageManager.getVocabulary s) := by
      simp [applyOp, StorageManager.addRecentlySeen, hf2, StorageManager.getVocabulary]
    obtain ⟨hnd, hle⟩ := hinv
    constructor
    · rw [wordKeys, hv, updateFirstBy_map_eq entryKey _ _ hkey]
      exact hnd
    · rw [hv, updateFirstBy_length]
      exact hle
  · have hf2 : ¬ ((s.vocabRaw.getD []).find? (StorageManager.matchesWord w)).isSome = true := hf
    have : applyOp (.addRecentlySeen w sentence url now) s = s := by
      simp [applyOp, StorageManager.addRecentlySeen, hf2, StorageManager.getVocabulary]
    rw [this]; exact hinv

theorem applyOp_preserves (op : StoreOp) (s : Store)
    (hop : goodOp op = true) (hinv : vocabInvariant s) :
    vocabInvariant (applyOp op s) := by
  cases op with
  | addWord wd fid now today =>
      have htrim : trimString wd.word = wd.word := by
        simpa [goodOp] using hop
      exact addWord_preserves wd fid now today s htrim hinv
  | updateWord id u =>
      have hu : u.word = none := by
        simpa [goodOp, Option.isNone_iff_eq_none] using hop
      exact updateWord_preserves id u s hu hinv
  | deleteWord id => exact deleteWord_preserves id s hinv
  | incrementSeenCount w now today => exact incrementSeenCount_preserves w now today s hinv
  | incrementUsedCount w today => exact incrementUsedCount_preserves w today s hinv
  | addRecentlySeen w sen url now => exact addRecentlySeen_preserves w sen url now s hinv
  | importVocabulary d => simp [goodOp] at hop

/-- C2 (amended): starting from the empty collection, every sequence of
`addWord` with trimmed inputs, `updateWord` not touching the word field,
`deleteWord`, `incrementSeenCount`, `incrementUsedCount` and
`addRecentlySeen` keeps word values unique under case-insensitive
comparison and the collection size at most 1000. -/
theorem c2_good_ops_preserve_invariant (ops : List StoreOp)
    (h : ∀ op ∈ ops, goodOp op = true) :
    vocabInvariant (applyOps ops emptyStore) := by
  have haux : ∀ (l : List StoreOp) (s : Store), vocabInvariant s →
      (∀ op ∈ l, goodOp op = true) → vocabInvariant (applyOps l s) := by
    intro l
    induction l with
    | nil => intro s hs _; exact hs
    | cons op l ih =>
        intro s hs hall
        exact ih (applyOp op s)
          (applyOp_preserves op s (hall op (by simp)) hs)
          (fun o ho => hall o (by simp [ho]))
  exact haux ops emptyStore (by decide) h

def goodOpsExample : List StoreOp :=
  [.addWord { word := "cat" } "id1" 0 "2024-01-01",
   .addWord { word := "Cat" } "id2" 1 "2024-01-01",
   .addWord { word := "dog" } "id3" 2 "2024-01-01",
   .incrementSeenCount "CAT" 3 "2024-01-01",
   .updateWord "id1" { seenCount := some 7 },
   .addRecentlySeen "dog" "a good dog" "https://example.com" 4,
   .deleteWord "id3"]

/-- Witness for the amended C2 at a concrete operation sequence
(including a rejected duplicate add). -/
theorem c2_amended_witness :
    (∀ op ∈ goodOpsExample, goodOp op = true)
      ∧ vocabInvariant (applyOps goodOpsExample emptyStore) :=
  ⟨by decide, c2_good_ops_preserve_invariant goodOpsExample (by decide)⟩
